import Mathlib

/-!
Verification development for the backup/restore engine of the `marka`
repository (`src/backup/backup_manager.py`, class `BackupManager`).

The Python code is shallowly embedded: byte strings are `List Nat`,
fallible operations return `Except`, and the filesystem / database state
that an operation touches is passed explicitly.  Each definition carries a
doc comment naming the source function and lines it is translated from.
-/

/-- Byte strings (`bytes` in Python) as lists of byte values. -/
abbrev Bytes := List Nat

namespace Marka

/-! ## Transform pipeline codecs

`_process_backup` uses `zlib.compress` / `Fernet.encrypt`;
`_process_restore` uses `Fernet.decrypt` / `zlib.decompress`
(`backup_manager.py` lines 161-183 and 324-344).

The two codecs are modelled by their framing behaviour, which is all the
auto-detection logic of `_process_restore` depends on:

* a zlib stream is its two header bytes (`0x78 0x9C`) followed by the
  payload; `zlibDecompress` succeeds exactly on well-framed streams and
  inverts `zlibCompress`.  In particular — as with real zlib — any output
  of the compressor is itself a decompressible byte string.
* a Fernet token is the version byte `0x80` followed by a key tag and the
  payload; `fernetDecrypt` succeeds exactly on tokens carrying the right
  key tag, failing on every other byte string (wrong key / not a token),
  which models Fernet's authenticated (HMAC-checked) decryption.
-/

/-- Model of `zlib.compress` (zlib framing: header bytes `0x78 0x9C`,
then the payload). -/
def zlibCompress (d : Bytes) : Bytes := 120 :: 156 :: d

/-- Model of `zlib.decompress`: succeeds exactly on well-framed zlib
streams, returning the payload; `none` models the `zlib.error` raised on
other input. -/
def zlibDecompress : Bytes → Option Bytes
  | 120 :: 156 :: d => some d
  | _ => none

/-- Model of `Fernet(key).encrypt` (token framing: version byte `0x80`,
a tag identifying the key, then the payload). -/
def fernetEncrypt (key : Nat) (d : Bytes) : Bytes := 128 :: key :: d

/-- Model of `Fernet(key).decrypt`: succeeds exactly on tokens produced
under the same key; `none` models the `InvalidToken` raised on a wrong
key or on data that is not a token. -/
def fernetDecrypt (key : Nat) : Bytes → Option Bytes
  | 128 :: k :: d => if k = key then some d else none
  | _ => none

/-- The data transform of `_process_backup` (lines 161-179): compress if
requested, then encrypt if requested. -/
def processBackupData (compress encrypt : Bool) (key : Nat) (d : Bytes) : Bytes :=
  let d1 := if compress then zlibCompress d else d
  if encrypt then fernetEncrypt key d1 else d1

/-- The data transform of `_process_restore` (lines 331-344): try to
decrypt, falling back to the original bytes on failure; then try to
decompress, falling back on failure. -/
def processRestoreData (key : Nat) (b : Bytes) : Bytes :=
  let d1 := match fernetDecrypt key b with
    | some d => d
    | none => b
  match zlibDecompress d1 with
  | some d => d
  | none => d1

theorem zlibDecompress_zlibCompress (d : Bytes) :
    zlibDecompress (zlibCompress d) = some d := rfl

theorem fernetDecrypt_fernetEncrypt (key : Nat) (d : Bytes) :
    fernetDecrypt key (fernetEncrypt key d) = some d := by
  simp [fernetDecrypt, fernetEncrypt]

theorem fernetDecrypt_zlibCompress (key : Nat) (d : Bytes) :
    fernetDecrypt key (zlibCompress d) = none := rfl

/-- Claim C1 (counterexample): the round-trip fails as stated.  Take as
bundle a byte string that is itself a valid zlib stream (for instance any
output of the compressor, here `zlibCompress [7]`, i.e. `zlib.compress`
applied to the byte `0x07`).  With flags `compress = false`,
`encrypt = false` the backup transform stores the bundle unchanged, and
the restore transform's try/except auto-detection wrongly decompresses
it, returning `[7]` instead of the bundle. -/
theorem roundTrip_counterexample :
    processRestoreData 0 (processBackupData false false 0 (zlibCompress [7]))
      ≠ zlibCompress [7] := by decide

/-- Claim C1 (amended): for every bundle that is neither a valid Fernet
token under the key nor a valid zlib stream, and for all four flag
combinations, the restore transform applied to the backup transform
returns the original bundle byte-for-byte. -/
theorem roundTrip_amended (key : Nat) (d : Bytes) (compress encrypt : Bool)
    (htok : fernetDecrypt key d = none) (hz : zlibDecompress d = none) :
    processRestoreData key (processBackupData compress encrypt key d) = d := by
  cases compress <;> cases encrypt <;>
    simp [processBackupData, processRestoreData, fernetDecrypt_fernetEncrypt,
      fernetDecrypt_zlibCompress, zlibDecompress_zlibCompress, htok, hz]

/-- Claim C1 (witness): the amended round-trip at a concrete bundle. -/
theorem roundTrip_amended_witness :
    processRestoreData 3 (processBackupData true true 3 [7]) = [7] :=
  roundTrip_amended 3 [7] true true (by decide) (by decide)

/-! ## Atomic replacer

`_replace_database` (lines 380-412).  The state the function touches is
the contents of the live database file; the candidate file's contents are
an input.  Faults are injected at the two points the source can fail in
its inner `try` block: the `shutil.copy2` of the candidate over the live
path, and the subsequent `database_manager.initialize()`.  A failing copy
may leave arbitrary partially-copied bytes (`junk`) at the live path
before the `except` handler runs.  The outer `except` (lines 410-412)
converts every error into `ValueError("Failed to replace database file")`,
modelled as `RErr.replaceError`. -/

/-- Errors raised by the restore flow (`restore_backup` and helpers).
`osError` is an unwrapped OS error, e.g. from `os.makedirs` (line 286);
the other constructors are the `ValueError`s raised by the helpers. -/
inductive RErr where
  | invalidBackup
  | osError
  | processError
  | invalidDatabase
  | replaceError
  deriving DecidableEq, Repr

/-- Outcome of `_replace_database`: the returned / raised result, and the
final contents of the live database file. -/
structure ReplaceOutcome where
  res : Except RErr Unit
  live : Bytes
  deriving Repr

/-- Model of `_replace_database` (lines 380-412).  `live` and `candidate`
are the contents of the live database file and of the verified candidate;
`junk` is whatever a failed `shutil.copy2` left at the live path;
`failCopy` injects a fault into that copy and `failInit` into
`database_manager.initialize()` (the `initialize` fault is persistent, so
the re-initialization in the `except` handler raises as well — the live
file has already been copied back from the `.pre-restore` snapshot at
that point). -/
def replaceDatabase (live candidate junk : Bytes) (failCopy failInit : Bool) :
    ReplaceOutcome :=
  -- line 389: shutil.copy2(db_path, backup_current_path)
  let snapshot := live
  if failCopy then
    -- line 393 raises mid-copy: the live path holds junk,
    let _liveAfterFault := junk
    -- lines 400-402: copy the snapshot back, re-init, re-raise;
    -- lines 410-412: outer handler raises ValueError
    { res := .error .replaceError, live := snapshot }
  else
    let liveReplaced := candidate
    if failInit then
      -- line 396 raises; lines 400-402 copy the snapshot back and the
      -- re-initialization raises again; outer handler raises ValueError
      let _liveAfterCopy := liveReplaced
      { res := .error .replaceError, live := snapshot }
    else
      { res := .ok (), live := liveReplaced }

/-- Claim C2: if the copy of the candidate over the live path or the
subsequent database re-initialization fails, `_replace_database` restores
the `.pre-restore` snapshot and raises an error, and the live database
file ends byte-identical to its contents before the attempt. -/
theorem replaceDatabase_atomic (live candidate junk : Bytes)
    (failCopy failInit : Bool) (h : failCopy = true ∨ failInit = true) :
    (replaceDatabase live candidate junk failCopy failInit).res
        = .error RErr.replaceError
      ∧ (replaceDatabase live candidate junk failCopy failInit).live = live := by
  cases failCopy <;> cases failInit <;>
    simp_all [replaceDatabase]

/-- Claim C2 (witness): a concrete injected fault at the candidate copy. -/
theorem replaceDatabase_atomic_witness :
    (replaceDatabase [1, 2] [3] [9] true false).res = .error RErr.replaceError
      ∧ (replaceDatabase [1, 2] [3] [9] true false).live = [1, 2] :=
  replaceDatabase_atomic [1, 2] [3] [9] true false (Or.inl rfl)

/-! ## Restore orchestration

`restore_backup` (lines 268-313) and its helpers `_verify_backup_file`
(lines 315-322), `_process_restore` (lines 324-360) and
`_verify_database_file` (lines 362-378).  The pipeline is modelled over
an explicit filesystem, because `_process_restore` is not a pure byte
transform: line 352 runs `tar.extractall(path=restore_dir)` with no
member filter, and a member whose name contains `..` components is
written *outside* the restore workspace — in particular over the live
database file, which sits two directories above the workspace
(`app_data_dir/marka.db` versus `app_data_dir/backups/restore`).  Member
names are therefore resolved against the extraction directory, and the
live database path is just another path of the filesystem. -/

/-- The stages of `restore_backup`, in source order. -/
inductive Stage where
  | verifying
  | preparing
  | transforming
  | integrityChecking
  | replacing
  | cleaning
  deriving DecidableEq, Repr

/-- A filesystem path, as its components from the filesystem root. -/
abbrev FPath := List String

/-- Resolution of one tar member name against the extraction directory,
as `tar.extractall` performs it when no member filter is installed
(line 352): a `..` component steps out of the directory, any other
component steps into it. -/
def resolveMember (base : FPath) (name : List String) : FPath :=
  name.foldl (fun acc c => if c = ".." then acc.dropLast else acc ++ [c]) base

/-- The filesystem as an association list from path to contents; a write
shadows earlier entries for the same path. -/
abbrev FileSys := List (FPath × Bytes)

/-- Read the file at `p` (the most recent write wins). -/
def fsRead : FileSys → FPath → Option Bytes
  | [], _ => none
  | e :: fs, p => if e.1 = p then some e.2 else fsRead fs p

/-- Write (create or overwrite) the file at `p`. -/
def fsWrite (fs : FileSys) (p : FPath) (d : Bytes) : FileSys := (p, d) :: fs

/-- `os.unlink`: remove the file at `p`. -/
def fsErase : FileSys → FPath → FileSys
  | [], _ => []
  | e :: fs, p => if e.1 = p then fsErase fs p else e :: fsErase fs p

/-- Model of `tar.extractall(path=restore_dir)` with no member filter
(line 352): write every member's contents at its resolved name — which a
crafted member name can place outside the extraction directory. -/
def extractAll (fs : FileSys) (base : FPath)
    (members : List (List String × Bytes)) : FileSys :=
  members.foldl (fun acc m => fsWrite acc (resolveMember base m.1) m.2) fs

theorem fsRead_fsWrite_ne (fs : FileSys) (p q : FPath) (d : Bytes)
    (h : p ≠ q) : fsRead (fsWrite fs p d) q = fsRead fs q := by
  simp [fsWrite, fsRead, h]

theorem fsRead_fsErase_ne (fs : FileSys) (p q : FPath) (h : p ≠ q) :
    fsRead (fsErase fs p) q = fsRead fs q := by
  induction fs with
  | nil => rfl
  | cons e fs ih =>
    by_cases he : e.1 = p
    · have hq : e.1 ≠ q := by rw [he]; exact h
      simp [fsErase, fsRead, he, hq, ih, h]
    · simp only [fsErase, fsRead, if_neg he]
      by_cases hq : e.1 = q
      · simp [fsRead, hq]
      · simp [fsRead, hq, ih]

theorem fsRead_extractAll_ne (base q : FPath)
    (members : List (List String × Bytes)) :
    ∀ (fs : FileSys), (∀ m ∈ members, resolveMember base m.1 ≠ q) →
      fsRead (extractAll fs base members) q = fsRead fs q := by
  induction members with
  | nil => intro fs _; rfl
  | cons m ms ih =>
    intro fs h
    have h1 : resolveMember base m.1 ≠ q := h m (List.mem_cons_self m ms)
    have hms : ∀ m' ∈ ms, resolveMember base m'.1 ≠ q :=
      fun m' hm' => h m' (List.mem_cons_of_mem m hm')
    have hstep : extractAll fs base (m :: ms)
        = extractAll (fsWrite fs (resolveMember base m.1) m.2) base ms := rfl
    rw [hstep, ih _ hms, fsRead_fsWrite_ne _ _ _ _ h1]

/-- Inputs and injected faults of one `restore_backup` invocation.
`artifact = none` models an unreadable backup file (`os.path.getsize`
raises); `members` are the tar members carried by the inverse-transformed
artifact bytes (the byte-level tar parse is elided; its failure, like any
other I/O failure inside `_process_restore`, is `processFault`);
`prepareFault` injects an `OSError` into `os.makedirs(restore_dir)`
(line 286); `integrityResult` is what `PRAGMA integrity_check` returned
(`none`: opening the candidate raised); `replaceFailCopy` /
`replaceFailInit` / `junk` are the `_replace_database` fault points. -/
structure RestoreEnv where
  artifact : Option Bytes
  key : Nat
  members : List (List String × Bytes)
  prepareFault : Bool
  processFault : Bool
  integrityResult : Option String
  replaceFailCopy : Bool
  replaceFailInit : Bool
  junk : Bytes

/-- Model of `_verify_backup_file` (lines 315-322): an unreadable or
empty backup file raises `ValueError("Invalid backup file")`. -/
def verifyBackupFile : Option Bytes → Except RErr Unit
  | none => .error .invalidBackup
  | some d => if d.length = 0 then .error .invalidBackup else .ok ()

/-- Model of `_verify_database_file` (lines 362-378): any result of the
integrity check other than the single row `ok` — or an exception opening
the file — raises `ValueError("Invalid database file in backup")`. -/
def verifyDatabaseFile : Option String → Except RErr Unit
  | some s => if s = "ok" then .ok () else .error .invalidDatabase
  | none => .error .invalidDatabase

/-- Outcome of `restore_backup`: result, final filesystem, and the trace
of stages entered. -/
structure RestoreOutcome where
  res : Except RErr Unit
  fs : FileSys
  trace : List Stage
  deriving Repr

/-- `os.path.basename(db_path)` (lines 156 and 356). -/
def baseName (p : FPath) : String := p.getLastD ""

/-- The filesystem left by the transform of `_process_restore`
(lines 346-354): write the inverse-transformed bytes to
`restore_dir/temp.tar`, extract the tarball with unfiltered `extractall`
(resolved member names, which may escape the workspace), remove
`temp.tar`.  (With no artifact there is nothing to transform.) -/
def transformedFs (env : RestoreEnv) (restoreDir : FPath) (fs : FileSys) :
    FileSys :=
  match env.artifact with
  | none => fs
  | some d =>
    fsErase
      (extractAll
        (fsWrite fs (restoreDir ++ ["temp.tar"]) (processRestoreData env.key d))
        restoreDir env.members)
      (restoreDir ++ ["temp.tar"])

/-- The stages of `restore_backup` from `_process_restore`'s failure
check onward, applied to the filesystem `fs1` left by the extraction
(lines 324-360 wrap every I/O failure of the transform into
`ValueError("Failed to process backup file for restore")`, raised after
whatever extraction work preceded the fault — `processFault` is charged
with the full extraction footprint, a conservative over-approximation of
its effects).  The candidate is the extracted file at
`restore_dir/basename(db_path)` (line 356), and the `Replacing` stage
runs `_replace_database` on the live database file. -/
def restoreAfterTransform (env : RestoreEnv) (dbPath restoreDir : FPath)
    (fs1 : FileSys) : RestoreOutcome :=
  if env.processFault = true then
    { res := .error .processError, fs := fs1
      trace := [.verifying, .preparing, .transforming] }
  else
    match verifyDatabaseFile env.integrityResult with
    | .error e =>
      { res := .error e, fs := fs1
        trace := [.verifying, .preparing, .transforming, .integrityChecking] }
    | .ok () =>
      let candidate := (fsRead fs1 (restoreDir ++ [baseName dbPath])).getD []
      let live0 := (fsRead fs1 dbPath).getD []
      let r := replaceDatabase live0 candidate env.junk
        env.replaceFailCopy env.replaceFailInit
      match r.res with
      | .error e =>
        { res := .error e, fs := fsWrite fs1 dbPath r.live
          trace := [.verifying, .preparing, .transforming,
            .integrityChecking, .replacing] }
      | .ok () =>
        { res := .ok (), fs := fsWrite fs1 dbPath r.live
          trace := [.verifying, .preparing, .transforming,
            .integrityChecking, .replacing, .cleaning] }

/-- Model of `restore_backup` (lines 268-313): verify the backup file,
create the restore workspace, run the inverse transform (the
`transformedFs` extraction), then check the candidate's integrity and
only then replace the live database. -/
def restoreBackup (env : RestoreEnv) (dbPath restoreDir : FPath)
    (fs : FileSys) : RestoreOutcome :=
  match verifyBackupFile env.artifact with
  | .error e => { res := .error e, fs := fs, trace := [.verifying] }
  | .ok () =>
    if env.prepareFault = true then
      { res := .error .osError, fs := fs, trace := [.verifying, .preparing] }
    else
      restoreAfterTransform env dbPath restoreDir
        (transformedFs env restoreDir fs)

theorem restoreAfterTransform_pre (env : RestoreEnv)
    (dbPath restoreDir : FPath) (fs1 : FileSys)
    (h : env.processFault = true
      ∨ verifyDatabaseFile env.integrityResult ≠ .ok ()) :
    (restoreAfterTransform env dbPath restoreDir fs1).res ≠ .ok ()
      ∧ Stage.replacing ∉ (restoreAfterTransform env dbPath restoreDir fs1).trace
      ∧ (restoreAfterTransform env dbPath restoreDir fs1).fs = fs1 := by
  unfold restoreAfterTransform
  by_cases hp : env.processFault = true
  · simp only [if_pos hp]
    exact ⟨by simp, by simp, by simp⟩
  · simp only [if_neg hp]
    rcases h with h | h
    · exact absurd h hp
    · cases hdb : verifyDatabaseFile env.integrityResult with
      | error e => exact ⟨by simp, by simp, rfl⟩
      | ok u => cases u; exact absurd hdb h

/-- The net effect of the transform stage on any path that is not the
workspace's `temp.tar` and that no member name resolves to: none. -/
theorem fsRead_transformedFs (env : RestoreEnv) (restoreDir dbPath : FPath)
    (fs : FileSys)
    (hm : ∀ m ∈ env.members, resolveMember restoreDir m.1 ≠ dbPath)
    (ht : restoreDir ++ ["temp.tar"] ≠ dbPath) :
    fsRead (transformedFs env restoreDir fs) dbPath = fsRead fs dbPath := by
  unfold transformedFs
  cases env.artifact with
  | none => rfl
  | some d =>
    rw [fsRead_fsErase_ne _ _ _ ht,
      fsRead_extractAll_ne restoreDir dbPath env.members _ hm,
      fsRead_fsWrite_ne _ _ _ _ ht]

/-- The live database path of the deployment layout: `db_path` sits in
the application data directory. -/
def dbPathX : FPath := ["data", "marka.db"]

/-- The restore workspace: `backup_dir/restore`, two directories below
the data directory (lines 285-286 with the default
`backup_dir = app_data_dir/backups`). -/
def restoreDirX : FPath := ["data", "backups", "restore"]

/-- A tar member name that `extractall` resolves onto the live database
path: two `..` steps out of `data/backups/restore`, then the database
file name. -/
def traversalMember : List String := ["..", "..", "marka.db"]

/-- Claim C7 (counterexample): the claim's "leaving the live database
untouched" conjunct fails.  A crafted artifact carrying the tar member
`../../marka.db` overwrites the live database during the `Transforming`
stage (unfiltered `extractall`, line 352); the integrity check then
raises (`integrityResult = none`, the candidate does not open), so the
restore fails before `Replacing` — yet the live database has changed
from `[5]` to `[9, 9]`. -/
theorem integrity_gate_counterexample :
    (restoreBackup
        ⟨some [1], 0, [(traversalMember, [9, 9])], false, false, none,
          false, false, []⟩
        dbPathX restoreDirX [(dbPathX, [5])]).res
        = .error RErr.invalidDatabase
      ∧ Stage.replacing
        ∉ (restoreBackup
            ⟨some [1], 0, [(traversalMember, [9, 9])], false, false, none,
              false, false, []⟩
            dbPathX restoreDirX [(dbPathX, [5])]).trace
      ∧ fsRead [(dbPathX, [5])] dbPathX = some [5]
      ∧ fsRead (restoreBackup
            ⟨some [1], 0, [(traversalMember, [9, 9])], false, false, none,
              false, false, []⟩
            dbPathX restoreDirX [(dbPathX, [5])]).fs dbPathX
        = some [9, 9] :=
  ⟨rfl, by decide, rfl, rfl⟩

/-- Claim C7 (amended): whenever the integrity check does not return
`ok` (or raises opening the candidate), the restore raises an error and
the `Replacing` stage (`_replace_database`) is never entered, for every
combination of the other fault points; the live database is moreover
untouched provided the artifact is honest — no tar member name resolves
onto the live database path (and the live path is not the workspace's
`temp.tar` path). -/
theorem integrity_gate_amended (env : RestoreEnv) (dbPath restoreDir : FPath)
    (fs : FileSys) (h : env.integrityResult ≠ some "ok") :
    (restoreBackup env dbPath restoreDir fs).res ≠ .ok ()
      ∧ Stage.replacing ∉ (restoreBackup env dbPath restoreDir fs).trace
      ∧ ((∀ m ∈ env.members, resolveMember restoreDir m.1 ≠ dbPath) →
          restoreDir ++ ["temp.tar"] ≠ dbPath →
          fsRead (restoreBackup env dbPath restoreDir fs).fs dbPath
            = fsRead fs dbPath) := by
  have hdb : verifyDatabaseFile env.integrityResult = .error .invalidDatabase := by
    unfold verifyDatabaseFile
    match hr : env.integrityResult with
    | none => rfl
    | some s =>
      have hs : ¬ s = "ok" := by
        intro hs; exact h (by rw [hr, hs])
      simp [hs]
  unfold restoreBackup
  cases hv : verifyBackupFile env.artifact with
  | error e => exact ⟨by simp, by simp, fun _ _ => rfl⟩
  | ok u =>
    cases u
    by_cases hpf : env.prepareFault = true
    · simp only [if_pos hpf]
      exact ⟨by simp, by simp, fun _ _ => by simp⟩
    · simp only [if_neg hpf]
      have hmain := restoreAfterTransform_pre env dbPath restoreDir
        (transformedFs env restoreDir fs) (Or.inr (by rw [hdb]; simp))
      refine ⟨hmain.1, hmain.2.1, fun hm ht => ?_⟩
      rw [hmain.2.2, fsRead_transformedFs env restoreDir dbPath fs hm ht]

/-- Claim C7 (witness): a concrete failed integrity check with an
honest (workspace-confined) artifact: the restore fails before
`Replacing` and the live database is untouched. -/
theorem integrity_gate_amended_witness :
    (restoreBackup
        ⟨some [1], 0, [(["member.db"], [2])], false, false, none,
          false, false, []⟩
        dbPathX restoreDirX [(dbPathX, [5])]).res ≠ .ok ()
      ∧ Stage.replacing
        ∉ (restoreBackup
            ⟨some [1], 0, [(["member.db"], [2])], false, false, none,
              false, false, []⟩
            dbPathX restoreDirX [(dbPathX, [5])]).trace
      ∧ fsRead (restoreBackup
            ⟨some [1], 0, [(["member.db"], [2])], false, false, none,
              false, false, []⟩
            dbPathX restoreDirX [(dbPathX, [5])]).fs dbPathX
        = fsRead [(dbPathX, [5])] dbPathX := by
  have hmain := integrity_gate_amended
    ⟨some [1], 0, [(["member.db"], [2])], false, false, none,
      false, false, []⟩
    dbPathX restoreDirX [(dbPathX, [5])] (by decide)
  exact ⟨hmain.1, hmain.2.1, hmain.2.2 (by decide) (by decide)⟩

/-- Claim C8 (counterexample): the frame property fails as stated.  The
same traversal artifact (`../../marka.db` member) overwrites the live
database during the `Transforming` stage; the integrity check then
returns `malformed`, a failure strictly before `Replacing` — yet the
live database has changed from `[1, 2, 3]` to `[7, 7]`: the stages
before `Replacing` do not operate solely on temporary/staged files. -/
theorem restore_frame_counterexample :
    (restoreBackup
        ⟨some [4], 0, [(traversalMember, [7, 7])], false, false,
          some "malformed", false, false, []⟩
        dbPathX restoreDirX [(dbPathX, [1, 2, 3])]).res
        = .error RErr.invalidDatabase
      ∧ Stage.replacing
        ∉ (restoreBackup
            ⟨some [4], 0, [(traversalMember, [7, 7])], false, false,
              some "malformed", false, false, []⟩
            dbPathX restoreDirX [(dbPathX, [1, 2, 3])]).trace
      ∧ fsRead [(dbPathX, [1, 2, 3])] dbPathX = some [1, 2, 3]
      ∧ fsRead (restoreBackup
            ⟨some [4], 0, [(traversalMember, [7, 7])], false, false,
              some "malformed", false, false, []⟩
            dbPathX restoreDirX [(dbPathX, [1, 2, 3])]).fs dbPathX
        = some [7, 7] :=
  ⟨rfl, by decide, rfl, rfl⟩

/-- Claim C8 (amended): a restore that fails in any stage before
`Replacing` — backup-file verification, workspace preparation, the
inverse transform, or the integrity check — raises an error and never
enters `Replacing`; the live database file is moreover unchanged
provided no tar member name of the artifact resolves onto the live
database path (and the live path is not the workspace's `temp.tar`
path).  Without that proviso the unfiltered `extractall` of the
`Transforming` stage can rewrite the live database, as the
counterexample shows. -/
theorem restore_frame_amended (env : RestoreEnv) (dbPath restoreDir : FPath)
    (fs : FileSys)
    (h : verifyBackupFile env.artifact ≠ .ok ()
      ∨ env.prepareFault = true
      ∨ env.processFault = true
      ∨ verifyDatabaseFile env.integrityResult ≠ .ok ()) :
    (restoreBackup env dbPath restoreDir fs).res ≠ .ok ()
      ∧ Stage.replacing ∉ (restoreBackup env dbPath restoreDir fs).trace
      ∧ ((∀ m ∈ env.members, resolveMember restoreDir m.1 ≠ dbPath) →
          restoreDir ++ ["temp.tar"] ≠ dbPath →
          fsRead (restoreBackup env dbPath restoreDir fs).fs dbPath
            = fsRead fs dbPath) := by
  unfold restoreBackup
  cases hv : verifyBackupFile env.artifact with
  | error e => exact ⟨by simp, by simp, fun _ _ => rfl⟩
  | ok u =>
    cases u
    by_cases hpf : env.prepareFault = true
    · simp only [if_pos hpf]
      exact ⟨by simp, by simp, fun _ _ => by simp⟩
    · simp only [if_neg hpf]
      have hrest : env.processFault = true
          ∨ verifyDatabaseFile env.integrityResult ≠ .ok () := by
        rcases h with h | h | h | h
        · exact absurd hv h
        · exact absurd h hpf
        · exact Or.inl h
        · exact Or.inr h
      have hmain := restoreAfterTransform_pre env dbPath restoreDir
        (transformedFs env restoreDir fs) hrest
      refine ⟨hmain.1, hmain.2.1, fun hm ht => ?_⟩
      rw [hmain.2.2, fsRead_transformedFs env restoreDir dbPath fs hm ht]

/-- Claim C8 (witness): a concrete fault in the inverse transform with a
workspace-confined artifact: the restore fails before `Replacing` and
the live database is untouched. -/
theorem restore_frame_amended_witness :
    (restoreBackup
        ⟨some [1], 0, [(["a.db"], [2])], false, true, some "ok",
          false, false, []⟩
        dbPathX restoreDirX [(dbPathX, [5])]).res ≠ .ok ()
      ∧ Stage.replacing
        ∉ (restoreBackup
            ⟨some [1], 0, [(["a.db"], [2])], false, true, some "ok",
              false, false, []⟩
            dbPathX restoreDirX [(dbPathX, [5])]).trace
      ∧ fsRead (restoreBackup
            ⟨some [1], 0, [(["a.db"], [2])], false, true, some "ok",
              false, false, []⟩
            dbPathX restoreDirX [(dbPathX, [5])]).fs dbPathX
        = fsRead [(dbPathX, [5])] dbPathX := by
  have hmain := restore_frame_amended
    ⟨some [1], 0, [(["a.db"], [2])], false, true, some "ok",
      false, false, []⟩
    dbPathX restoreDirX [(dbPathX, [5])] (Or.inr (Or.inr (Or.inl rfl)))
  exact ⟨hmain.1, hmain.2.1, hmain.2.2 (by decide) (by decide)⟩

/-! ## Backup transform file handling

`_process_backup` (lines 161-183) at the level of file contents.  A
directory is an association list from path to contents.  The destination
is opened with mode `wb` (truncate/create) and the processed bytes are
written to it in one call; an I/O error after `n` bytes leaves the prefix
of length `n` at the destination path.  There is no temporary staging and
no rename in the source: the destination it writes is the final artifact
path passed by `create_backup` (line 110). -/

/-- A directory as an association list from path to file contents. -/
abbrev Dir := List (String × Bytes)

/-- Overwrite (or create) the file at `p` with contents `d`. -/
def dirSet (fs : Dir) (p : String) (d : Bytes) : Dir :=
  (p, d) :: fs.filter (fun e => e.1 ≠ p)

theorem dirSet_lookup (fs : Dir) (p : String) (d : Bytes) :
    (dirSet fs p d).lookup p = some d := by
  simp [dirSet, List.lookup]

/-- Model of `_process_backup` (lines 161-183): read the source file,
apply the data transform, and write the result directly to the
destination path.  `failAfter = some n` injects an I/O error after `n`
bytes of the write (the `except` at lines 181-183 turns it into
`ValueError("Failed to process backup file")`); the truncating
`open(dest_path, "wb")` has already replaced the destination's contents
with the written prefix at that point. -/
def processBackupFile (fs : Dir) (src dst : String) (compress encrypt : Bool)
    (key : Nat) (failAfter : Option Nat) : Except RErr Unit × Dir :=
  match fs.lookup src with
  | none => (.error .processError, fs)
  | some raw =>
    let out := processBackupData compress encrypt key raw
    match failAfter with
    | none => (.ok (), dirSet fs dst out)
    | some n => (.error .processError, dirSet fs dst (out.take n))

/-- Claim C3 (counterexample): the transform step does not stage its
output.  With the tarball `[1, 2, 3]` at `db.tmp` and an I/O error
injected after one byte of the write, `_process_backup` fails — yet the
final artifact path now holds a non-empty strict prefix of the processed
output: a partial output file is left at the final path on failure. -/
theorem processBackup_partial_counterexample :
    (processBackupFile [("db.tmp", [1, 2, 3])] "db.tmp" "b.marka"
        true true 0 (some 1)).1 = .error RErr.processError
      ∧ (processBackupFile [("db.tmp", [1, 2, 3])] "db.tmp" "b.marka"
          true true 0 (some 1)).2.lookup "b.marka" = some [128]
      ∧ some [128]
        ≠ some (processBackupData true true 0 [1, 2, 3])
      ∧ ([128] : Bytes) ≠ [] := by
  constructor
  · rfl
  · refine ⟨?_, by decide, by decide⟩
    rfl

/-- Claim C3 (amended): for every invocation of the backup transform
step, the processed output is written directly to the final artifact
path, with no temporary staging and no rename; if the write fails after
`n` bytes the invocation raises `ProcessingError` and the prefix of
length `n` of the processed output is left at the final path. -/
theorem processBackup_direct_write (fs : Dir) (src dst : String)
    (compress encrypt : Bool) (key : Nat) (raw : Bytes) (n : Nat)
    (hsrc : fs.lookup src = some raw) :
    (processBackupFile fs src dst compress encrypt key (some n)).1
        = .error RErr.processError
      ∧ (processBackupFile fs src dst compress encrypt key (some n)).2.lookup dst
        = some ((processBackupData compress encrypt key raw).take n) := by
  simp [processBackupFile, hsrc, dirSet_lookup]

/-- Claim C3 (witness): the amended statement at a concrete directory. -/
theorem processBackup_direct_write_witness :
    (processBackupFile [("db.tmp", [1, 2, 3])] "db.tmp" "b.marka"
        true true 0 (some 1)).1 = .error RErr.processError
      ∧ (processBackupFile [("db.tmp", [1, 2, 3])] "db.tmp" "b.marka"
          true true 0 (some 1)).2.lookup "b.marka"
        = some ((processBackupData true true 0 [1, 2, 3]).take 1) :=
  processBackup_direct_write [("db.tmp", [1, 2, 3])] "db.tmp" "b.marka"
    true true 0 [1, 2, 3] 1 rfl

/-! ## `create_backup` artifact naming and path construction

Lines 88-98.  Line 96 builds the artifact file name; line 97 then
evaluates `str(Path(self.options["backup_dir"])) / backup_name`.  Both
operands of `/` are `str` values — `str(...)` is applied to the `Path`
before the division — and Python's `str` type defines neither
`__truediv__` nor an `__rtruediv__` accepted by `str`, so the expression
raises `TypeError`.  `pathlib.Path.__truediv__` / `__rtruediv__` join a
`Path` with a `str` (in either order), which is what the surrounding code
intends; the Python `/` operator is modelled on both value kinds. -/

/-- Python errors relevant to `create_backup` / `_upload_to_cloud`. -/
inductive PyErr where
  | typeError
  | nameError
  deriving DecidableEq, Repr

/-- A Python value that is either a `str` or a `pathlib.Path`. -/
inductive PyVal where
  | str (s : String)
  | path (s : String)
  deriving DecidableEq, Repr

/-- Python's `/` operator on `str` / `Path` operands: `Path` joins with
either operand order (`Path.__truediv__` / `Path.__rtruediv__`), while
`str / str` raises `TypeError` (`str` has no division). -/
def pyTrueDiv : PyVal → PyVal → Except PyErr PyVal
  | .path a, .str b => .ok (.path (a ++ "/" ++ b))
  | .path a, .path b => .ok (.path (a ++ "/" ++ b))
  | .str a, .path b => .ok (.path (a ++ "/" ++ b))
  | .str _, .str _ => .error .typeError

/-- The artifact file name built at line 96:
`marka-backup-<timestamp>` with `-auto` appended exactly when the backup
is automatic, then the `.marka` extension. -/
def backupName (automatic : Bool) (timestamp : String) : String :=
  "marka-backup-" ++ timestamp ++ (if automatic then "-auto" else "") ++ ".marka"

/-- The prologue of `create_backup` (lines 95-98): build the artifact
name, then evaluate line 97,
`str(Path(self.options["backup_dir"])) / backup_name`, whose result
would become `backup_path`.  (`str(Path(d))` is the `str` value of the
normalized directory, modelled as `PyVal.str backupDir`.) -/
def createBackupPath (backupDir : String) (automatic : Bool)
    (timestamp : String) : Except PyErr PyVal :=
  pyTrueDiv (.str backupDir) (.str (backupName automatic timestamp))

/-- Claim C4: for every backup directory, `automatic` flag and
timestamp, the `backup_path` expression at line 97 raises `TypeError`
(`str / str`), before the `try` block at line 100 is entered — so no
invocation of `create_backup` ever returns an artifact path, even though
the file name built at line 96 has the form the claim describes. -/
theorem createBackupPath_typeError (backupDir : String) (automatic : Bool)
    (timestamp : String) :
    createBackupPath backupDir automatic timestamp = .error PyErr.typeError
      ∧ backupName automatic timestamp
        = "marka-backup-" ++ timestamp
          ++ (if automatic then "-auto" else "") ++ ".marka" :=
  ⟨rfl, rfl⟩

/-! ## Cloud upload

`_upload_to_cloud` (lines 185-224) and the module's import list
(lines 1-14).  When at least one upload task was queued the function
evaluates `asyncio.gather(*upload_tasks)` (line 223); the name `asyncio`
is resolved against the module's global namespace, which contains only
the names bound by the import statements at the top of the file. -/

/-- The names bound at module level by the imports of
`backup_manager.py`, lines 1-14. -/
def moduleImports : List String :=
  ["os", "json", "logging", "hashlib", "zlib", "tarfile", "tempfile",
   "datetime", "timedelta", "Path", "Optional", "Dict", "List", "Any",
   "QObject", "Signal", "Fernet", "storage", "boto3"]

/-- Resolution of a module-level name: a name not bound by any import
raises `NameError`. -/
def lookupGlobal (n : String) : Except PyErr Unit :=
  if n ∈ moduleImports then .ok () else .error .nameError

/-- Model of `_upload_to_cloud` (lines 185-224): a task is queued for
each configured provider with its bucket variable set; if any task was
queued, line 223 evaluates the global name `asyncio`. -/
def uploadToCloud (gcpConfigured awsConfigured : Bool) : Except PyErr Unit :=
  let tasks := (if gcpConfigured then 1 else 0) + (if awsConfigured then 1 else 0)
  if 0 < tasks then
    match lookupGlobal "asyncio" with
    | .ok () => .ok ()
    | .error e => .error e
  else .ok ()

/-- Claim C10: `asyncio` is not among the module's imported names, and
whenever at least one cloud upload task is queued, `_upload_to_cloud`
raises `NameError` at the `asyncio.gather` call — so every backup with a
queued cloud upload fails. -/
theorem uploadToCloud_nameError (gcpConfigured awsConfigured : Bool)
    (h : gcpConfigured = true ∨ awsConfigured = true) :
    "asyncio" ∉ moduleImports
      ∧ uploadToCloud gcpConfigured awsConfigured = .error PyErr.nameError := by
  refine ⟨by decide, ?_⟩
  rcases h with h | h <;> subst h
  · cases awsConfigured <;> rfl
  · cases gcpConfigured <;> rfl

/-- Claim C10 (witness): a configured GCP upload. -/
theorem uploadToCloud_nameError_witness :
    "asyncio" ∉ moduleImports
      ∧ uploadToCloud true false = .error PyErr.nameError :=
  uploadToCloud_nameError true false (Or.inl rfl)

/-! ## Retention manager

`_apply_retention_policy` (lines 226-266): list the `.marka` files of the
backup directory, sort them by modification time, newest first
(line 243, in place); delete the files beyond position `max_backups`
(lines 246-252); then delete every listed file whose modification time is
older than the cutoff (lines 254-262) — iterating the same sorted list,
so a file removed by the count pass may be attempted again.  Each
deletion is wrapped in its own `try`/`except` that only logs. -/

/-- One artifact as listed by `_apply_retention_policy`: file name and
modification time. -/
structure BFile where
  name : String
  time : Nat
  deriving DecidableEq, Repr

/-- The sort key of line 243: newest first (`b` is at most as recent as
`a`). -/
def newerEq (a b : BFile) : Prop := b.time ≤ a.time

instance : DecidableRel newerEq := fun a b => Nat.decLe b.time a.time

instance : IsTotal BFile newerEq := ⟨fun a b => Nat.le_total b.time a.time⟩

instance : IsTrans BFile newerEq :=
  ⟨fun _ _ _ hab hbc => Nat.le_trans hbc hab⟩

/-- The in-place sort of line 243: modification time descending. -/
def sortNewestFirst (files : List BFile) : List BFile :=
  List.insertionSort newerEq files

/-- The artifacts still present after `_apply_retention_policy` when
every deletion succeeds: the count pass (lines 246-252) keeps the first
`maxBackups` of the sorted list when there are more than that, and the
age pass (lines 254-262) removes every file with `time < cutoff`. -/
def retentionRemaining (files : List BFile) (maxBackups cutoff : Nat) :
    List BFile :=
  let sorted := sortNewestFirst files
  let afterCount := if maxBackups < sorted.length then sorted.take maxBackups
    else sorted
  afterCount.filter (fun f => ! decide (f.time < cutoff))

/-- Claim C5: with `maxBackups = k` fewer than the number of artifacts
and no artifact older than the cutoff, exactly `k` artifacts remain
after the retention pass, all of them from the original directory, and
every deleted artifact is at most as recent as every remaining one. -/
theorem retention_count_bound (files : List BFile) (k cutoff : Nat)
    (hk : k < files.length) (hage : ∀ f ∈ files, ¬ f.time < cutoff) :
    (retentionRemaining files k cutoff).length = k
      ∧ (∀ g ∈ retentionRemaining files k cutoff, g ∈ files)
      ∧ (∀ g ∈ retentionRemaining files k cutoff, ∀ d ∈ files,
          d ∉ retentionRemaining files k cutoff → d.time ≤ g.time) := by
  have hperm : List.Perm (sortNewestFirst files) files :=
    List.perm_insertionSort newerEq files
  have hlen : (sortNewestFirst files).length = files.length := hperm.length_eq
  have hklt : k < (sortNewestFirst files).length := by rw [hlen]; exact hk
  have hcount : retentionRemaining files k cutoff
      = ((sortNewestFirst files).take k).filter
          (fun f => ! decide (f.time < cutoff)) := by
    rw [retentionRemaining, if_pos hklt]
  have hkeep : ((sortNewestFirst files).take k).filter
      (fun f => ! decide (f.time < cutoff)) = (sortNewestFirst files).take k := by
    apply List.filter_eq_self.mpr
    intro f hf
    have hfs : f ∈ sortNewestFirst files := List.take_subset k _ hf
    have : f ∈ files := hperm.subset hfs
    simp [hage f this]
  have hrem : retentionRemaining files k cutoff = (sortNewestFirst files).take k :=
    hcount.trans hkeep
  refine ⟨?_, ?_, ?_⟩
  · rw [hrem, List.length_take]
    exact Nat.min_eq_left (Nat.le_of_lt hklt)
  · intro g hg
    rw [hrem] at hg
    exact hperm.subset (List.take_subset k _ hg)
  · intro g hg d hd hdn
    rw [hrem] at hg hdn
    have hds : d ∈ sortNewestFirst files := hperm.mem_iff.mpr hd
    have hsplit : (sortNewestFirst files).take k ++ (sortNewestFirst files).drop k
        = sortNewestFirst files := List.take_append_drop k _
    have hddrop : d ∈ (sortNewestFirst files).drop k := by
      rcases List.mem_append.mp (by rw [hsplit]; exact hds) with h | h
      · exact absurd h hdn
      · exact h
    have hsorted : List.Pairwise newerEq
        ((sortNewestFirst files).take k ++ (sortNewestFirst files).drop k) := by
      rw [hsplit]
      exact List.sorted_insertionSort newerEq files
    exact (List.pairwise_append.mp hsorted).2.2 g hg d hddrop

/-- Claim C5 (witness): three artifacts, `max_backups = 2`, none
expired. -/
theorem retention_count_bound_witness :
    (retentionRemaining [⟨"a", 5⟩, ⟨"b", 3⟩, ⟨"c", 9⟩] 2 1).length = 2
      ∧ (∀ g ∈ retentionRemaining [⟨"a", 5⟩, ⟨"b", 3⟩, ⟨"c", 9⟩] 2 1,
          g ∈ ([⟨"a", 5⟩, ⟨"b", 3⟩, ⟨"c", 9⟩] : List BFile))
      ∧ (∀ g ∈ retentionRemaining [⟨"a", 5⟩, ⟨"b", 3⟩, ⟨"c", 9⟩] 2 1,
          ∀ d ∈ ([⟨"a", 5⟩, ⟨"b", 3⟩, ⟨"c", 9⟩] : List BFile),
          d ∉ retentionRemaining [⟨"a", 5⟩, ⟨"b", 3⟩, ⟨"c", 9⟩] 2 1
            → d.time ≤ g.time) :=
  retention_count_bound [⟨"a", 5⟩, ⟨"b", 3⟩, ⟨"c", 9⟩] 2 1 (by decide)
    (by decide)

/-- Claim C6: every artifact older than the cutoff is removed by the
retention pass, whatever `max_backups` is. -/
theorem retention_age_bound (files : List BFile) (k cutoff : Nat) (f : BFile)
    (_hmem : f ∈ files) (hold : f.time < cutoff) :
    f ∉ retentionRemaining files k cutoff := by
  intro hin
  have := List.of_mem_filter hin
  simp [hold] at this

/-- Claim C6 (witness): an expired artifact among three is removed even
with room under `max_backups`. -/
theorem retention_age_bound_witness :
    (⟨"b", 3⟩ : BFile) ∉ retentionRemaining [⟨"a", 5⟩, ⟨"b", 3⟩, ⟨"c", 9⟩] 10 4 :=
  retention_age_bound [⟨"a", 5⟩, ⟨"b", 3⟩, ⟨"c", 9⟩] 10 4 ⟨"b", 3⟩
    (by decide) (by decide)

/-! ### Deletion failures during retention

The same two passes with the deletions made fallible: `delOk` says
whether `os.unlink` succeeds on a present file, and a file that is no
longer present fails with `FileNotFoundError`.  Each attempt transcribes
one iteration of the `for` loops at lines 247-252 / 256-262: `try`
unlink, `except` log and continue. -/

/-- State threaded through the deletion loops: the directory contents,
every file name an unlink was attempted on, and the logged failures. -/
structure RetState where
  present : List String
  attempts : List String
  failures : List String
  deriving Repr

/-- Model of `os.unlink`: removes a present file when the oracle allows
it; raises (as `Except.error`) on a missing file (`FileNotFoundError`,
e.g. after the count pass already deleted it) or on an I/O failure. -/
def unlinkFile (present : List String) (delOk : String → Bool) (n : String) :
    Except String (List String) :=
  if n ∈ present then
    if delOk n then .ok (present.erase n) else .error n
  else .error n

/-- One loop iteration (lines 247-252 and 256-262): attempt the unlink;
on error, log it and continue with the directory unchanged. -/
def delStep (delOk : String → Bool) (st : RetState) (f : BFile) : RetState :=
  match unlinkFile st.present delOk f.name with
  | .ok p =>
    { present := p, attempts := st.attempts ++ [f.name]
      failures := st.failures }
  | .error _ =>
    { present := st.present, attempts := st.attempts ++ [f.name]
      failures := st.failures ++ [f.name] }

/-- Model of `_apply_retention_policy` (lines 226-266) with fallible
deletions: the count pass over the sorted tail beyond `max_backups`,
then the age pass over every sorted entry older than the cutoff. -/
def applyRetentionPolicy (files : List BFile) (k cutoff : Nat)
    (present : List String) (delOk : String → Bool) : RetState :=
  let sorted := sortNewestFirst files
  let countTargets := if k < sorted.length then sorted.drop k else []
  let st1 := countTargets.foldl (delStep delOk) ⟨present, [], []⟩
  let ageTargets := sorted.filter (fun f => decide (f.time < cutoff))
  ageTargets.foldl (delStep delOk) st1

/-- The deletions `_apply_retention_policy` should attempt, read off the
policy alone: the sorted tail beyond `max_backups`, then every file
older than the cutoff. -/
def eligibleNames (files : List BFile) (k cutoff : Nat) : List String :=
  let sorted := sortNewestFirst files
  (if k < sorted.length then sorted.drop k else []).map (fun f => f.name)
    ++ (sorted.filter (fun f => decide (f.time < cutoff))).map (fun f => f.name)

theorem foldl_delStep_attempts (delOk : String → Bool) (l : List BFile)
    (st : RetState) :
    (l.foldl (delStep delOk) st).attempts
      = st.attempts ++ l.map (fun f => f.name) := by
  induction l generalizing st with
  | nil => simp
  | cons f l ih =>
    rw [List.foldl_cons, ih]
    have : (delStep delOk st f).attempts = st.attempts ++ [f.name] := by
      rw [delStep]
      cases unlinkFile st.present delOk f.name <;> rfl
    rw [this]
    simp

/-- Claim C9: whatever the directory contents and however the individual
`os.unlink` calls fail — including a file already removed by the count
pass being selected again by the age pass — the retention pass attempts
every eligible deletion and returns normally; a failed deletion is only
recorded in the log. -/
theorem retention_no_abort (files : List BFile) (k cutoff : Nat)
    (present : List String) (delOk : String → Bool) :
    (applyRetentionPolicy files k cutoff present delOk).attempts
      = eligibleNames files k cutoff := by
  rw [applyRetentionPolicy, eligibleNames,
    foldl_delStep_attempts, foldl_delStep_attempts]
  simp

end Marka
